import Mathlib

/-!
Verification development for the ESP32 UWB proximity-chat unit firmware
(`src/esp32/unit_firmware`): a shallow embedding in Lean 4 of the parts of
`config.h`, `utils.h`, `dw3000_driver.h` and `main.cpp` that carry the
ranging logic, together with theorems settling the specification claims.

Modelling conventions:
- machine integers are `Nat`/`Int` with explicit `% 2^w` wrapping where the
  C type can wrap (`uint8_t` sequence numbers, `uint64_t` timestamps,
  `uint16_t` addresses); `int64_t` intermediates of the estimator are `Int`
  with the two's-complement reinterpretation of the `uint64→int64` casts
  made explicit (`toInt64`);
- `float`/`double` values (distance, quality) are never computed on in any
  claim, so they are carried as an abstract type parameter `V`;
- hardware I/O (`dw3000_tx`/`dw3000_rx`/timestamp registers) is modelled by
  an environment record giving each call's outcome, and each driver entry
  point becomes a pure function from environment and driver state to an
  outcome record (return value, frames actually transmitted, state after).
-/

namespace UWBFirmware

/-! ## config.h -/

/-- config.h line 116: duration of each unit's TDMA slot in milliseconds. -/
def TIME_SLOT_DURATION_MS : Nat := 200

/-- config.h line 45: total number of units in the system. -/
def NUM_PEERS : Nat := 3

/-- config.h line 117: full cycle length, `NUM_PEERS * TIME_SLOT_DURATION_MS`. -/
def CYCLE_DURATION_MS : Nat := NUM_PEERS * TIME_SLOT_DURATION_MS

/-- config.h line 44: roster of unit identifiers. -/
def PEER_IDS : List Char := ['A', 'B', 'C']

/-- config.h line 86: max time to wait for a ranging response (ms). -/
def RANGING_TIMEOUT_MS : Nat := 100

/-- config.h line 84: time between ranging attempts (ms). -/
def RANGING_INTERVAL_MS : Nat := 500

/-- config.h line 41: numeric rank of a unit, `UNIT_ID - 'A'` (A=0, B=1, C=2).
The firmware only compiles for `UNIT_ID` in {A,B,C} (config.h lines 209-211);
`Nat` truncated subtraction is harmless for the characters actually allowed. -/
def UNIT_NUMERIC_ID (unitID : Char) : Nat := unitID.toNat - 'A'.toNat

/-- config.h line 123: start offset of this unit's slot inside the cycle. -/
def MY_SLOT_OFFSET_MS (rank : Nat) : Nat := rank * TIME_SLOT_DURATION_MS

/-! ## utils.h -/

/-- utils.h lines 62-67 (`isMyTimeSlot`): true when `millis() % CYCLE_DURATION_MS`
lies in the unit's slot window.  The wall-clock value read from `millis()` is the
`millis` argument; the unit whose config the firmware was compiled with is the
`unitID` argument. -/
def isMyTimeSlot (unitID : Char) (millis : Nat) : Bool :=
  let cycleTime := millis % CYCLE_DURATION_MS
  let slotStart := MY_SLOT_OFFSET_MS (UNIT_NUMERIC_ID unitID)
  let slotEnd := slotStart + TIME_SLOT_DURATION_MS
  decide (slotStart ≤ cycleTime ∧ cycleTime < slotEnd)

/-- utils.h lines 282-287 (`charToIndex`): `'A'..'C'` maps to `0..2`, anything
else to `-1`. -/
def charToIndex (id : Char) : Int :=
  if 'A' ≤ id ∧ id ≤ 'C' then (id.toNat : Int) - ('A'.toNat : Int) else -1

/-- utils.h lines 294-299 (`indexToChar`): `0 ≤ index < NUM_PEERS` maps to
`'A' + index`, anything else to `'?'`. -/
def indexToChar (index : Int) : Char :=
  if 0 ≤ index ∧ index < (NUM_PEERS : Int) then Char.ofNat ('A'.toNat + index.toNat)
  else '?'

/-! ## dw3000_driver.h: distance estimator -/

/-- Two to the 64: the modulus of the `uint64_t` timestamp arithmetic. -/
def UINT64_MOD : Nat := 2 ^ 64

/-- Reduction into the `uint64_t` value range. -/
def wrap64 (n : Nat) : Nat := n % UINT64_MOD

/-- `uint64_t` subtraction `a - b` with wraparound. -/
def sub64 (a b : Nat) : Nat := (wrap64 a + (UINT64_MOD - wrap64 b)) % UINT64_MOD

/-- Reinterpretation of a `uint64_t` bit pattern as `int64_t`
(the `(int64_t)(...)` casts on dw3000_driver.h lines 539-542). -/
def toInt64 (n : Nat) : Int :=
  let m := n % UINT64_MOD
  if m < 2 ^ 63 then (m : Int) else (m : Int) - (UINT64_MOD : Int)

/-- dw3000_driver.h lines 94-101 (`TWRPayload`): the six DS-TWR timestamps,
each a `uint64_t` in device time units. -/
structure TWRPayload where
  pollTxTime : Nat
  pollRxTime : Nat
  respTxTime : Nat
  respRxTime : Nat
  finalTxTime : Nat
  finalRxTime : Nat
deriving DecidableEq, Repr

/-- dw3000_driver.h lines 539-544: the four round-trip/turn-around intervals
of `calculate_distance_from_twr` as the code computes them (`uint64_t`
subtraction, then an `int64_t` cast). -/
def twr_Ra (twr : TWRPayload) : Int := toInt64 (sub64 twr.respRxTime twr.pollTxTime)

/-- See `twr_Ra`: `Rb = finalRx - respTx`. -/
def twr_Rb (twr : TWRPayload) : Int := toInt64 (sub64 twr.finalRxTime twr.respTxTime)

/-- See `twr_Ra`: `Da = respTx - pollRx`. -/
def twr_Da (twr : TWRPayload) : Int := toInt64 (sub64 twr.respTxTime twr.pollRxTime)

/-- See `twr_Ra`: `Db = finalTx - respRx`. -/
def twr_Db (twr : TWRPayload) : Int := toInt64 (sub64 twr.finalTxTime twr.respRxTime)

/-- The divisor `Ra + Rb + Da + Db` of dw3000_driver.h line 544.  The C code
adds `int64_t` values; signed overflow would be undefined behaviour, so the
sum is taken in unbounded `Int` (exact whenever the code itself is defined). -/
def twr_denominator (twr : TWRPayload) : Int :=
  twr_Ra twr + twr_Rb twr + twr_Da twr + twr_Db twr

/-- dw3000_driver.h line 544: the integer time-of-flight
`tof_dtu = ((Ra * Rb) - (Da * Db)) / (Ra + Rb + Da + Db)` of
`calculate_distance_from_twr`, with the C `int64_t` division rounding toward
zero (`Int.tdiv`).  The source contains NO zero-divisor branch: the division
is reached unconditionally, and dividing by zero is undefined behaviour in
C++ (an integer-divide trap on the ESP32 target), producing no value; that
undefined case is modelled as `none`.  The subsequent float conversion of
lines 547-558 (tick duration, speed of light, calibration offset) is not
modelled (floating point); every claim about this function concerns the
integer tick value. -/
def calculate_distance_from_twr_tof (twr : TWRPayload) : Option Int :=
  if twr_denominator twr = 0 then none
  else some (Int.tdiv (twr_Ra twr * twr_Rb twr - twr_Da twr * twr_Db twr)
    (twr_denominator twr))

/-! ## dw3000_driver.h: frames and driver state -/

/-- dw3000_driver.h line 58. -/
def MSG_TYPE_POLL : Nat := 0x61

/-- dw3000_driver.h line 59. -/
def MSG_TYPE_RESP : Nat := 0x50

/-- dw3000_driver.h line 60. -/
def MSG_TYPE_FINAL : Nat := 0x69

/-- dw3000_driver.h line 61. -/
def MSG_TYPE_REPORT : Nat := 0x72

/-- dw3000_driver.h line 122: the PAN identifier 0xDECA. -/
def PAN_ID : Nat := 0xDECA

/-- The 32-byte `payload[32]` field of `UWBFrame` (dw3000_driver.h line 88),
viewed as the four little-endian 64-bit words that fit in it.  When a
48-byte `TWRPayload` is copied in, `build_frame` copies
`min(payloadLen, 32) = 32` bytes (line 530), i.e. exactly the words
`pollTxTime, pollRxTime, respTxTime, respRxTime`; the `finalTxTime` and
`finalRxTime` words (offsets 32..47) never fit in a frame. -/
structure FramePayload where
  w0 : Nat
  w1 : Nat
  w2 : Nat
  w3 : Nat
deriving DecidableEq, Repr

/-- The 32-byte truncation performed by `build_frame`'s
`memcpy(frame->payload, payload, min(payloadLen, 32))` when the caller
passes a 48-byte `TWRPayload` (as every caller does). -/
def twrToFramePayload (p : TWRPayload) : FramePayload :=
  ⟨p.pollTxTime, p.pollRxTime, p.respTxTime, p.respRxTime⟩

/-- dw3000_driver.h lines 81-89 (`UWBFrame`), with the multi-byte fields as
numbers: `panID`/`destAddr`/`sourceAddr` are the `uint16_t` values memcpy'd
into the two-byte arrays. -/
structure UWBFrame where
  frameCtrl0 : Nat
  frameCtrl1 : Nat
  sequence : Nat
  panID : Nat
  destAddr : Nat
  sourceAddr : Nat
  msgType : Nat
  payload : FramePayload
deriving DecidableEq, Repr

/-- dw3000_driver.h lines 106-112. -/
inductive UWBState where
  | idle
  | init
  | ready
  | ranging
  | error
deriving DecidableEq, Repr

/-- dw3000_driver.h lines 70-76 (`RangingResult`).  `distance` and `quality`
are C `float`s; their values are carried as an abstract type `V` since no
claim computes on them. -/
structure RangingResult (V : Type) where
  success : Bool
  distance : V
  quality : V
  timestamp : Nat
  peerID : Char
deriving DecidableEq, Repr

/-- The mutable module state of dw3000_driver.h lines 118-121:
`g_uwbState`, `g_lastResult` and the `uint8_t` counter `g_sequenceNum`. -/
structure DriverState (V : Type) where
  uwbState : UWBState
  lastResult : RangingResult V
  seqNum : Nat
deriving DecidableEq, Repr

/-- dw3000_driver.h lines 509-532 (`build_frame`): fills a frame and
post-increments `g_sequenceNum` (a `uint8_t`, so the counter wraps at 256).
Returns the built frame together with the new counter value.  A `none`
payload is the `nullptr` case (payload left at the `memset` zeros); a `some`
payload is the 32-byte truncated copy `twrToFramePayload` of the caller's
`TWRPayload`. -/
def build_frame (seqNum : Nat) (unitID : Char) (msgType : Nat) (destID : Char)
    (payload : Option FramePayload) : UWBFrame × Nat :=
  (
    { frameCtrl0 := 0x41
      frameCtrl1 := 0x88
      sequence := seqNum % 256
      panID := PAN_ID
      destAddr := destID.toNat % 65536
      sourceAddr := unitID.toNat % 65536
      msgType := msgType
      payload := payload.getD ⟨0, 0, 0, 0⟩ },
    (seqNum + 1) % 256)

/-! ## dw3000_driver.h: `uwb_range` (initiator), hardware build

`config.h` line 135 sets `ENABLE_SIMULATION false`, so the compiled firmware
takes the `#else` branches; the `#if ENABLE_SIMULATION` variant (the
"no-hardware" mode of the spec) is modelled separately below. -/

/-- Radio/clock behaviour observed by one `uwb_range` call: the outcome of
each `dw3000_tx`/`dw3000_rx` call and the register timestamps, in program
order.  `resp`/`report` are the frames decoded from `rxBuffer` on a
successful `dw3000_rx` (`none` = receive timeout or error).
`reportOobFinalRx` is the value of the out-of-bounds read
`reportTWR->finalRxTime` on line 662: `finalRxTime` sits at payload offset
40, past the 32-byte `payload` array, so the load reads stale adjacent
`rxBuffer` bytes — an indeterminate value supplied by the environment.
`distanceOf` and `qualityOf` abstract the `float` computations of lines
667-672 (`calculate_distance_from_twr`'s float conversion and the 0.9/0.3
quality heuristic). -/
structure RangeEnv (V : Type) where
  pollTxOk : Bool
  pollTxTs : Nat
  resp : Option UWBFrame
  respRxTs : Nat
  finalTxOk : Bool
  finalTxTs : Nat
  report : Option UWBFrame
  reportOobFinalRx : Nat
  nowTs : Nat
  distanceOf : TWRPayload → V
  qualityOf : V → V

/-- Everything one `uwb_range` / `uwb_respond` call does that a caller or a
later call can observe: the boolean return value, the six-timestamp set the
distance estimator was invoked on (`none` = estimator never called), the
write to the caller's by-reference `result` argument (`none` = argument left
untouched), the frames actually transmitted (in order; a frame whose
`dw3000_tx` failed is not listed), and the driver state afterwards. -/
structure RangeOutcome (V : Type) where
  ret : Bool
  estimatorArg : Option TWRPayload
  resultWrite : Option (RangingResult V)
  framesSent : List UWBFrame
  finalState : DriverState V

/-- dw3000_driver.h lines 626-629: on a valid RESP the initiator overwrites
the exchange record's `pollRxTime` and `respTxTime` with the first and
second 64-bit words at payload offsets 8 and 16 of the received frame
(`respTWR->pollRxTime`, `respTWR->respTxTime`). -/
def extract_resp_timestamps (twr : TWRPayload) (respFrame : UWBFrame) : TWRPayload :=
  { twr with pollRxTime := respFrame.payload.w1, respTxTime := respFrame.payload.w2 }

/-- dw3000_driver.h lines 564-687 (`uwb_range`, hardware path): the DS-TWR
initiator.  Every exit path restores `g_uwbState` to READY, so only the
sequence counter (and, on full success, `g_lastResult`) change in the
driver state. -/
def uwb_range_hw (V : Type) (unitID : Char) (env : RangeEnv V)
    (st : DriverState V) (peerID : Char) : RangeOutcome V :=
  if st.uwbState ≠ UWBState.ready then
    { ret := false, estimatorArg := none, resultWrite := none,
      framesSent := [], finalState := st }
  else
    -- Step 1: build and send POLL (no payload)
    let pollBuilt := build_frame st.seqNum unitID MSG_TYPE_POLL peerID none
    let pollFrame := pollBuilt.1
    let st1 : DriverState V := { st with seqNum := pollBuilt.2 }
    if env.pollTxOk = false then
      { ret := false, estimatorArg := none, resultWrite := none,
        framesSent := [], finalState := st1 }
    else
      -- twr.pollTxTime = dw3000_get_tx_timestamp()
      -- Step 2: wait for RESP
      match env.resp with
      | none =>
        { ret := false, estimatorArg := none, resultWrite := none,
          framesSent := [pollFrame], finalState := st1 }
      | some respFrame =>
        if respFrame.msgType ≠ MSG_TYPE_RESP then
          { ret := false, estimatorArg := none, resultWrite := none,
            framesSent := [pollFrame], finalState := st1 }
        else
          -- twr after lines 603, 616, 626-629 (memset zeros elsewhere)
          let twr1 : TWRPayload :=
            extract_resp_timestamps
              { pollTxTime := env.pollTxTs, pollRxTime := 0, respTxTime := 0,
                respRxTime := env.respRxTs, finalTxTime := 0, finalRxTime := 0 }
              respFrame
          -- Step 3: send FINAL carrying the timestamps known so far
          let finalBuilt := build_frame st1.seqNum unitID MSG_TYPE_FINAL peerID
            (some (twrToFramePayload twr1))
          let finalFrame := finalBuilt.1
          let st2 : DriverState V := { st1 with seqNum := finalBuilt.2 }
          if env.finalTxOk = false then
            { ret := false, estimatorArg := none, resultWrite := none,
              framesSent := [pollFrame], finalState := st2 }
          else
            let twr2 : TWRPayload := { twr1 with finalTxTime := env.finalTxTs }
            -- Step 4: wait for REPORT
            match env.report with
            | none =>
              { ret := false, estimatorArg := none, resultWrite := none,
                framesSent := [pollFrame, finalFrame], finalState := st2 }
            | some reportFrame =>
              if reportFrame.msgType ≠ MSG_TYPE_REPORT then
                { ret := false, estimatorArg := none, resultWrite := none,
                  framesSent := [pollFrame, finalFrame], finalState := st2 }
              else
                let twr3 : TWRPayload := { twr2 with finalRxTime := env.reportOobFinalRx }
                let distance := env.distanceOf twr3
                let quality := env.qualityOf distance
                let result : RangingResult V :=
                  { success := true, distance := distance, quality := quality,
                    timestamp := env.nowTs, peerID := peerID }
                { ret := true, estimatorArg := some twr3, resultWrite := some result,
                  framesSent := [pollFrame, finalFrame],
                  finalState := { st2 with lastResult := result } }

/-! ## dw3000_driver.h: simulation-mode variants (`ENABLE_SIMULATION true`) -/

/-- dw3000_driver.h lines 331-332: in simulation mode `dw3000_rx` is
`return false` — no frame is ever received. -/
def dw3000_rx_sim : Bool := false

/-- dw3000_driver.h lines 740-742: in simulation mode `uwb_respond` is
`return false` — the responder does nothing. -/
def uwb_respond_sim : Bool := false

/-- dw3000_driver.h lines 572-585 (`uwb_range`, `#if ENABLE_SIMULATION`
branch): the driver itself fabricates a successful result, with
`result.distance = generateSimulatedDistance(peerID)` (utils.h lines
255-271, a sinusoid of `millis()` and the peer — a `float` computation
abstracted here as the parameter `generateSimulatedDistance`),
`result.quality = SIM_QUALITY`, and `result.timestamp = getTimestamp()`
`= millis() / 1000` (utils.h line 45); it stores the result in
`g_lastResult` and returns true.  No frame is built or sent and the
estimator is never invoked. -/
def uwb_range_sim (V : Type) (generateSimulatedDistance : Char → Nat → V)
    (SIM_QUALITY : V) (millis : Nat) (st : DriverState V) (peerID : Char) :
    RangeOutcome V :=
  if st.uwbState ≠ UWBState.ready then
    { ret := false, estimatorArg := none, resultWrite := none,
      framesSent := [], finalState := st }
  else
    let result : RangingResult V :=
      { success := true
        distance := generateSimulatedDistance peerID millis
        quality := SIM_QUALITY
        timestamp := millis / 1000
        peerID := peerID }
    { ret := true, estimatorArg := none, resultWrite := some result,
      framesSent := [], finalState := { st with lastResult := result } }

/-! ## dw3000_driver.h: `uwb_respond` (responder), hardware build -/

/-- Radio/clock behaviour observed by one `uwb_respond` call.  `junkResp`
and `junkReport` are the indeterminate stack contents of the two local
`TWRPayload` variables (lines 779 and 815), which the code declares WITHOUT
initialisation and only partially assigns before copying them into a
frame. -/
structure RespondEnv where
  poll : Option UWBFrame
  pollRxTs : Nat
  junkResp : TWRPayload
  respTxOk : Bool
  respTxTs : Nat
  final : Option UWBFrame
  finalRxTs : Nat
  junkReport : TWRPayload
  reportTxOk : Bool

/-- Observable effects of one `uwb_respond` call: return value, transmitted
frames (in order, successful `dw3000_tx` only), driver state after.
`uwb_respond` never touches `g_uwbState` or `g_lastResult`; the only state
it can change is the sequence counter, through `build_frame`. -/
structure RespondOutcome (V : Type) where
  ret : Bool
  framesSent : List UWBFrame
  finalState : DriverState V

/-- dw3000_driver.h lines 739-832 (`uwb_respond`, hardware path).  Key
detail for the RESP payload: line 780 sets only `respPayload.pollRxTime`
before `build_frame` copies the payload into the frame (line 783) and the
frame is transmitted (line 788); the assignment
`respPayload.respTxTime = respTxTime` on line 794 happens AFTER the
transmission and never reaches any frame (a dead store), so the transmitted
RESP carries the uninitialised stack words in its `pollTxTime`,
`respTxTime` and `respRxTime` slots.  Similarly the REPORT payload's
`finalRxTime` (line 816) sits at offset 40, beyond the 32 copied bytes, so
the transmitted REPORT carries only the four uninitialised words of
`reportPayload`. -/
def uwb_respond_hw (V : Type) (unitID : Char) (env : RespondEnv)
    (st : DriverState V) : RespondOutcome V :=
  if st.uwbState ≠ UWBState.ready then
    { ret := false, framesSent := [], finalState := st }
  else
    match env.poll with
    | none => { ret := false, framesSent := [], finalState := st }
    | some pollFrame =>
      -- line 761: destination must equal (uint16_t)UNIT_ID
      if pollFrame.destAddr ≠ unitID.toNat % 65536 then
        { ret := false, framesSent := [], finalState := st }
      else if pollFrame.msgType ≠ MSG_TYPE_POLL then
        { ret := false, framesSent := [], finalState := st }
      else
        -- line 774: char initiatorID = (char)srcAddr
        let initiatorID := Char.ofNat (pollFrame.sourceAddr % 256)
        -- lines 779-783: respPayload.pollRxTime set; the rest stays junk
        let respPayload1 : TWRPayload := { env.junkResp with pollRxTime := env.pollRxTs }
        let respBuilt := build_frame st.seqNum unitID MSG_TYPE_RESP initiatorID
          (some (twrToFramePayload respPayload1))
        let respFrame := respBuilt.1
        let st1 : DriverState V := { st with seqNum := respBuilt.2 }
        if env.respTxOk = false then
          { ret := false, framesSent := [], finalState := st1 }
        else
          -- line 794: respPayload.respTxTime = respTxTime — dead store,
          -- the frame holding the payload copy was already transmitted
          match env.final with
          | none => { ret := false, framesSent := [respFrame], finalState := st1 }
          | some finalFrame =>
            if finalFrame.msgType ≠ MSG_TYPE_FINAL then
              { ret := false, framesSent := [respFrame], finalState := st1 }
            else
              -- lines 815-819: reportPayload.finalRxTime set at offset 40,
              -- beyond the 32 bytes build_frame copies
              let reportBuilt := build_frame st1.seqNum unitID MSG_TYPE_REPORT initiatorID
                (some (twrToFramePayload { env.junkReport with finalRxTime := env.finalRxTs }))
              let reportFrame := reportBuilt.1
              let st2 : DriverState V := { st1 with seqNum := reportBuilt.2 }
              if env.reportTxOk = false then
                { ret := false, framesSent := [respFrame], finalState := st2 }
              else
                { ret := true, framesSent := [respFrame, reportFrame], finalState := st2 }

/-! ## main.cpp: the orchestrator loop -/

/-- The externally visible calls one iteration of `loop()` (main.cpp lines
151-316) can make, in order.  `respondCall t` stands for `uwb_respond(t)`
— the responder entry point of dw3000_driver.h — which `loop()` would have
to invoke to serve peers outside its own slot. -/
inductive LoopAction where
  | wifiMonitor
  | delayMs (n : Nat)
  | uwbInitCall
  | rangeAttempt (peer : Char)
  | respondCall (timeoutMs : Nat)
  | sendDistance (node peer : Char)
  | heartbeat
  | statsReport
  | memCheck
deriving DecidableEq, Repr

/-- Inputs one `loop()` iteration reads: the wall clock, the results of the
collaborator queries (`wifi_is_connected`, `uwb_is_ready`), the unit's
compiled identity, the round-robin peer index `g_currentPeerIdx` (kept in
`[0, NUM_PEERS)` by the code's `% NUM_PEERS` updates), the outcome of the
`uwb_range` call if one is made (`rangeRet`; `resultQualityOk` abstracts the
`float` test `result.quality >= QUALITY_THRESHOLD`), and whether each
periodic task's interval has elapsed. -/
structure LoopEnv where
  millis : Nat
  wifiConnected : Bool
  uwbReady : Bool
  unitID : Char
  currentPeerIdx : Nat
  rangeRet : Bool
  resultQualityOk : Bool
  udpOk : Bool
  heartbeatDue : Bool
  statsDue : Bool
  memDue : Bool

/-- main.cpp lines 240-298: the periodic-task section at the end of a loop
iteration (heartbeat, performance statistics, memory check; all three
compile-time flags are `true` in config.h). -/
def loopPeriodic (env : LoopEnv) : List LoopAction :=
  (if env.heartbeatDue then [LoopAction.heartbeat] else [])
    ++ (if env.statsDue then [LoopAction.statsReport] else [])
    ++ (if env.memDue then [LoopAction.memCheck] else [])

/-- main.cpp lines 151-316 (`loop()`): the calls one iteration makes, in
order.  Early `return`s (Wi-Fi down, UWB not ready, self-peer skip) leave
the iteration before the periodic section, exactly as in the source.  The
ranging branch mirrors lines 183-234: inside the unit's own slot it ranges
with `PEER_IDS[g_currentPeerIdx]` and forwards the result over UDP when the
quality test passes; OUTSIDE the slot the `else` branch on lines 231-234 is
only `delay(50)` — `uwb_respond` appears nowhere in `main.cpp`. -/
def loop_actions (env : LoopEnv) : List LoopAction :=
  LoopAction.wifiMonitor ::
  (if env.wifiConnected = false then [LoopAction.delayMs 1000]
  else if env.uwbReady = false then
    (if env.millis % 5000 = 0 then [LoopAction.uwbInitCall] else [])
      ++ [LoopAction.delayMs 1000]
  else
    (if isMyTimeSlot env.unitID env.millis then
      let peerID := PEER_IDS.getD env.currentPeerIdx '?'
      if peerID = env.unitID then [LoopAction.delayMs 10]
      else
        LoopAction.rangeAttempt peerID ::
        ((if env.rangeRet then
            (if env.resultQualityOk then [LoopAction.sendDistance env.unitID peerID]
             else [])
          else [])
          ++ [LoopAction.delayMs RANGING_INTERVAL_MS]
          ++ loopPeriodic env)
    else LoopAction.delayMs 50 :: loopPeriodic env))

/-! ## Iterated sequence counter

The `sequence` field written by `build_frame` and the post-incremented
counter value depend only on the counter, not on the message type,
addresses or payload (dw3000_driver.h line 516), so the iteration below
fixes dummy frame arguments. -/

/-- Value of `g_sequenceNum` after `n` calls to `build_frame`, starting
from `s0`. -/
def g_sequenceNum_after (s0 : Nat) : Nat → Nat
  | 0 => s0
  | n + 1 => (build_frame (g_sequenceNum_after s0 n) 'A' MSG_TYPE_POLL 'B' none).2

/-- Sequence number carried by the `n`-th frame built (counting from 0)
when the counter starts at `s0`. -/
def nth_frame_sequence (s0 n : Nat) : Nat :=
  (build_frame (g_sequenceNum_after s0 n) 'A' MSG_TYPE_POLL 'B' none).1.sequence

/-! ## Concrete sample states and environments (used by witness theorems) -/

/-- A concrete READY driver state (`g_lastResult` zero-initialised as for a
static, `g_sequenceNum = 0`), with `float` slots carried as `Int`. -/
def sampleDriverState : DriverState Int :=
  { uwbState := UWBState.ready
    lastResult := { success := false, distance := 0, quality := 0, timestamp := 0, peerID := 'A' }
    seqNum := 0 }

/-- A ranging environment in which the POLL transmits but no RESP frame
arrives within the timeout. -/
def sampleRangeEnvRespTimeout : RangeEnv Int :=
  { pollTxOk := true, pollTxTs := 10, resp := none, respRxTs := 0,
    finalTxOk := true, finalTxTs := 0, report := none, reportOobFinalRx := 0,
    nowTs := 7, distanceOf := fun _ => 0, qualityOf := fun q => q }

/-- A POLL frame addressed to unit 'B' (destination 66) from unit 'A'. -/
def samplePollToB : UWBFrame :=
  { frameCtrl0 := 0x41, frameCtrl1 := 0x88, sequence := 3, panID := PAN_ID,
    destAddr := 66, sourceAddr := 65, msgType := MSG_TYPE_POLL,
    payload := ⟨0, 0, 0, 0⟩ }

/-- A responder environment delivering `samplePollToB`; the uninitialised
`respPayload` stack words are 11,12,13,14,15,16 and the RESP TX timestamp
latched after transmission is 42. -/
def sampleRespondEnvPollToB : RespondEnv :=
  { poll := some samplePollToB, pollRxTs := 777,
    junkResp := ⟨11, 12, 13, 14, 15, 16⟩, respTxOk := true, respTxTs := 42,
    final := none, finalRxTs := 0, junkReport := ⟨0, 0, 0, 0, 0, 0⟩,
    reportTxOk := true }

/-- A loop environment: unit 'A' at `millis() = 300` (outside A's
[0,200) slot), Wi-Fi up, UWB ready, no periodic task due. -/
def sampleLoopEnvOutsideSlot : LoopEnv :=
  { millis := 300, wifiConnected := true, uwbReady := true, unitID := 'A',
    currentPeerIdx := 1, rangeRet := false, resultQualityOk := false,
    udpOk := true, heartbeatDue := false, statsDue := false, memDue := false }

/-! ## Helper lemmas -/

/-- Two characters with the same numeric code point are equal. -/
theorem char_val_toNat_inj {a b : Char} (h : a.val.toNat = b.val.toNat) : a = b := by
  apply Char.ext
  have h2 : a.val.toBitVec = b.val.toBitVec := BitVec.eq_of_toNat_eq h
  rcases ha : a.val with ⟨abv⟩
  rcases hb : b.val with ⟨bbv⟩
  rw [ha, hb] at h2
  simp_all

/-- The only characters in the closed interval `['A', 'C']` are A, B, C. -/
theorem char_between_A_C {c : Char} (h1 : 'A' ≤ c) (h2 : c ≤ 'C') :
    c = 'A' ∨ c = 'B' ∨ c = 'C' := by
  have hv1 : ('A' : Char).val.toNat ≤ c.val.toNat := h1
  have hv2 : c.val.toNat ≤ ('C' : Char).val.toNat := h2
  have h65 : ('A' : Char).val.toNat = 65 := by decide
  have h67 : ('C' : Char).val.toNat = 67 := by decide
  have h3 : c.val.toNat = 65 ∨ c.val.toNat = 66 ∨ c.val.toNat = 67 := by omega
  rcases h3 with h | h | h
  · exact Or.inl (char_val_toNat_inj (by rw [h]; decide))
  · exact Or.inr (Or.inl (char_val_toNat_inj (by rw [h]; decide)))
  · exact Or.inr (Or.inr (char_val_toNat_inj (by rw [h]; decide)))

/-- On in-range, ordered inputs the `uint64_t` subtraction followed by the
`int64_t` cast is the mathematical difference. -/
theorem toInt64_sub64_of_le {a b : Nat} (hba : b ≤ a) (ha : a < 2 ^ 63) :
    toInt64 (sub64 a b) = (a : Int) - (b : Int) := by
  have hb : b < 2 ^ 63 := lt_of_le_of_lt hba ha
  simp only [toInt64, sub64, wrap64, UINT64_MOD]
  split
  · omega
  · omega

/-! ## Claim theorems -/

/-- C1: the claim says `calculate_distance_from_twr` fails with
`ArithmeticError` on a zero denominator and never silently divides by zero.
The source (dw3000_driver.h line 544) contains no check at all: on the
all-zero timestamp set the denominator `Ra+Rb+Da+Db` is 0 and the division
is reached with a zero divisor — undefined behaviour in C++ (an
integer-divide trap on the target), modelled as `none`: no distance value
and no typed error is ever produced. -/
theorem calculate_tof_zero_denominator :
    twr_denominator ⟨0, 0, 0, 0, 0, 0⟩ = 0
    ∧ calculate_distance_from_twr_tof ⟨0, 0, 0, 0, 0, 0⟩ = none := by
  constructor <;> decide

/-- C5: on every six-timestamp set whose timestamps are in range and
ordered as the protocol guarantees, the integer time-of-flight computed by
`calculate_distance_from_twr` equals `(Ra*Rb - Da*Db) / (Ra+Rb+Da+Db)`
(C `int64_t` division, i.e. `Int.tdiv`) with `Ra = respRx - pollTx`,
`Rb = finalRx - respTx`, `Da = respTx - pollRx`, `Db = finalTx - respRx`;
in particular the set with `Ra = Rb = 2000`, `Da = Db = 1000` yields
exactly 500 ticks. -/
theorem calculate_tof_matches_spec_formula :
    (∀ (twr : TWRPayload) (Ra Rb Da Db : Int),
      twr.pollTxTime < 2 ^ 63 → twr.pollRxTime < 2 ^ 63 → twr.respTxTime < 2 ^ 63 →
      twr.respRxTime < 2 ^ 63 → twr.finalTxTime < 2 ^ 63 → twr.finalRxTime < 2 ^ 63 →
      twr.pollTxTime ≤ twr.respRxTime → twr.respTxTime ≤ twr.finalRxTime →
      twr.pollRxTime ≤ twr.respTxTime → twr.respRxTime ≤ twr.finalTxTime →
      Ra = (twr.respRxTime : Int) - (twr.pollTxTime : Int) →
      Rb = (twr.finalRxTime : Int) - (twr.respTxTime : Int) →
      Da = (twr.respTxTime : Int) - (twr.pollRxTime : Int) →
      Db = (twr.finalTxTime : Int) - (twr.respRxTime : Int) →
      Ra + Rb + Da + Db ≠ 0 →
      calculate_distance_from_twr_tof twr =
        some (Int.tdiv (Ra * Rb - Da * Db) (Ra + Rb + Da + Db)))
    ∧ calculate_distance_from_twr_tof ⟨0, 500, 1500, 2000, 3000, 3500⟩ = some 500 := by
  constructor
  · intro twr Ra Rb Da Db h1 h2 h3 h4 h5 h6 o1 o2 o3 o4 eRa eRb eDa eDb hden
    have ha : twr_Ra twr = Ra := by rw [eRa]; exact toInt64_sub64_of_le o1 h4
    have hb : twr_Rb twr = Rb := by rw [eRb]; exact toInt64_sub64_of_le o2 h6
    have hda : twr_Da twr = Da := by rw [eDa]; exact toInt64_sub64_of_le o3 h3
    have hdb : twr_Db twr = Db := by rw [eDb]; exact toInt64_sub64_of_le o4 h5
    simp [calculate_distance_from_twr_tof, twr_denominator, ha, hb, hda, hdb, hden]
  · decide

/-- C5 witness: the end-to-end instance `pollTx=0, pollRx=500, respTx=1500,
respRx=2000, finalTx=3000, finalRx=3500` has `Ra=Rb=2000`, `Da=Db=1000`
and the formula evaluates to 500 ticks. -/
theorem calculate_tof_matches_spec_formula_witness :
    calculate_distance_from_twr_tof ⟨0, 500, 1500, 2000, 3000, 3500⟩ =
      some (Int.tdiv (2000 * 2000 - 1000 * 1000) (2000 + 2000 + 1000 + 1000)) :=
  calculate_tof_matches_spec_formula.1 ⟨0, 500, 1500, 2000, 3000, 3500⟩
    2000 2000 1000 1000 (by decide) (by decide) (by decide) (by decide) (by decide)
    (by decide) (by decide) (by decide) (by decide) (by decide) (by decide)
    (by decide) (by decide) (by decide) (by decide)

/-- C6: `isMyTimeSlot` is true iff `millis mod (3·200)` lies in
`[rank·200, (rank+1)·200)` where rank is the unit's numeric identity;
consequently at every instant exactly one of units A, B, C is in its slot
(at least one holds and no two hold together), and each unit's slot recurs
with period 600 ms. -/
theorem isMyTimeSlot_slot_window :
    ∀ (u : Char) (t : Nat),
      (isMyTimeSlot u t = true ↔
        UNIT_NUMERIC_ID u * 200 ≤ t % (3 * 200)
          ∧ t % (3 * 200) < (UNIT_NUMERIC_ID u + 1) * 200)
      ∧ ((isMyTimeSlot 'A' t = true ∨ isMyTimeSlot 'B' t = true ∨ isMyTimeSlot 'C' t = true)
          ∧ ¬(isMyTimeSlot 'A' t = true ∧ isMyTimeSlot 'B' t = true)
          ∧ ¬(isMyTimeSlot 'A' t = true ∧ isMyTimeSlot 'C' t = true)
          ∧ ¬(isMyTimeSlot 'B' t = true ∧ isMyTimeSlot 'C' t = true))
      ∧ isMyTimeSlot u (t + 600) = isMyTimeSlot u t := by
  intro u t
  have hA : UNIT_NUMERIC_ID 'A' = 0 := rfl
  have hB : UNIT_NUMERIC_ID 'B' = 1 := rfl
  have hC : UNIT_NUMERIC_ID 'C' = 2 := rfl
  refine ⟨?_, ?_, ?_⟩
  · simp only [isMyTimeSlot, CYCLE_DURATION_MS, NUM_PEERS, TIME_SLOT_DURATION_MS,
      MY_SLOT_OFFSET_MS, decide_eq_true_eq]
    omega
  · simp only [isMyTimeSlot, CYCLE_DURATION_MS, NUM_PEERS, TIME_SLOT_DURATION_MS,
      MY_SLOT_OFFSET_MS, decide_eq_true_eq, hA, hB, hC]
    omega
  · have h600 : CYCLE_DURATION_MS = 600 := rfl
    simp only [isMyTimeSlot, h600, Nat.add_mod_right]

/-- C10: the identity conversions round-trip on the valid alphabet:
`charToIndex (indexToChar i) = i` for `0 ≤ i < 3`,
`indexToChar (charToIndex c) = c` for `c ∈ {A,B,C}`, every other character
maps to `-1`, and every other index maps to `'?'`. -/
theorem charToIndex_indexToChar_roundtrip :
    (∀ i : Int, 0 ≤ i → i < 3 → charToIndex (indexToChar i) = i)
    ∧ (∀ c : Char, c = 'A' ∨ c = 'B' ∨ c = 'C' → indexToChar (charToIndex c) = c)
    ∧ (∀ c : Char, c ≠ 'A' → c ≠ 'B' → c ≠ 'C' → charToIndex c = -1)
    ∧ (∀ i : Int, ¬(0 ≤ i ∧ i < 3) → indexToChar i = '?') := by
  refine ⟨?_, ?_, ?_, ?_⟩
  · intro i h0 h3
    have h : i = 0 ∨ i = 1 ∨ i = 2 := by omega
    rcases h with rfl | rfl | rfl <;> decide
  · intro c h
    rcases h with rfl | rfl | rfl <;> decide
  · intro c hcA hcB hcC
    have hn : ¬('A' ≤ c ∧ c ≤ 'C') := by
      rintro ⟨h1, h2⟩
      rcases char_between_A_C h1 h2 with rfl | rfl | rfl
      · exact hcA rfl
      · exact hcB rfl
      · exact hcC rfl
    simp [charToIndex, hn]
  · intro i h
    have hn : ¬(0 ≤ i ∧ i < (NUM_PEERS : Int)) := by
      rw [show (NUM_PEERS : Int) = 3 from rfl]
      exact h
    simp [indexToChar, hn]

/-- C10 witness: the four parts evaluated at `i = 1`, `c = 'B'`, `c = 'x'`
and `i = 5`. -/
theorem charToIndex_indexToChar_roundtrip_witness :
    charToIndex (indexToChar 1) = 1 ∧ indexToChar (charToIndex 'B') = 'B'
    ∧ charToIndex 'x' = -1 ∧ indexToChar 5 = '?' :=
  ⟨charToIndex_indexToChar_roundtrip.1 1 (by decide) (by decide),
   charToIndex_indexToChar_roundtrip.2.1 'B' (Or.inr (Or.inl rfl)),
   charToIndex_indexToChar_roundtrip.2.2.1 'x' (by decide) (by decide) (by decide),
   charToIndex_indexToChar_roundtrip.2.2.2 5 (by decide)⟩

/-- C9: starting from any `uint8_t` counter value `s0`, the `n`-th frame
built (counting from 0) carries sequence number `(s0 + n) % 256`, so the
sequence strictly increases modulo 256 and two consecutively built frames
never carry the same sequence number. -/
theorem build_frame_sequence_strictly_increases :
    ∀ s0 n : Nat, s0 < 256 →
      nth_frame_sequence s0 n = (s0 + n) % 256
      ∧ nth_frame_sequence s0 (n + 1) ≠ nth_frame_sequence s0 n := by
  have hc : ∀ s0 : Nat, s0 < 256 → ∀ n, g_sequenceNum_after s0 n = (s0 + n) % 256 := by
    intro s0 h n
    induction n with
    | zero => simpa [g_sequenceNum_after] using (Nat.mod_eq_of_lt h).symm
    | succ n ih =>
      simp only [g_sequenceNum_after, build_frame, ih]
      omega
  intro s0 n h
  constructor
  · simp only [nth_frame_sequence, build_frame, hc s0 h n]
    omega
  · simp only [nth_frame_sequence, build_frame, hc s0 h n, hc s0 h (n + 1)]
    omega

/-- C9 witness: starting from counter 250, frame 10 carries `(250+10) % 256
= 4` and frames 10 and 11 carry different sequence numbers. -/
theorem build_frame_sequence_strictly_increases_witness :
    nth_frame_sequence 250 10 = (250 + 10) % 256
    ∧ nth_frame_sequence 250 11 ≠ nth_frame_sequence 250 10 :=
  build_frame_sequence_strictly_increases 250 10 (by decide)

/-- C7: whenever no RESP frame arrives within the ranging timeout
(`env.resp = none`), `uwb_range` returns false, the distance estimator is
never invoked, the caller's `result` output is not written, and the stored
last result is unchanged. -/
theorem uwb_range_resp_timeout_no_result :
    ∀ (V : Type) (unitID : Char) (env : RangeEnv V) (st : DriverState V) (peerID : Char),
      env.resp = none →
      (uwb_range_hw V unitID env st peerID).ret = false
      ∧ (uwb_range_hw V unitID env st peerID).estimatorArg = none
      ∧ (uwb_range_hw V unitID env st peerID).resultWrite = none
      ∧ (uwb_range_hw V unitID env st peerID).finalState.lastResult = st.lastResult := by
  intro V unitID env st peerID h
  simp only [uwb_range_hw, h]
  split
  · exact ⟨rfl, rfl, rfl, rfl⟩
  · split
    · exact ⟨rfl, rfl, rfl, rfl⟩
    · exact ⟨rfl, rfl, rfl, rfl⟩

/-- C7 witness: `uwb_range_resp_timeout_no_result` at the sample READY
state and the RESP-timeout environment. -/
theorem uwb_range_resp_timeout_no_result_witness :
    (uwb_range_hw Int 'A' sampleRangeEnvRespTimeout sampleDriverState 'B').ret = false
    ∧ (uwb_range_hw Int 'A' sampleRangeEnvRespTimeout sampleDriverState 'B').estimatorArg = none
    ∧ (uwb_range_hw Int 'A' sampleRangeEnvRespTimeout sampleDriverState 'B').resultWrite = none
    ∧ (uwb_range_hw Int 'A' sampleRangeEnvRespTimeout sampleDriverState 'B').finalState.lastResult
        = sampleDriverState.lastResult :=
  uwb_range_resp_timeout_no_result Int 'A' sampleRangeEnvRespTimeout sampleDriverState 'B' rfl

/-- C8: when the responder receives a POLL whose destination address is not
its own identity, `uwb_respond` returns false, transmits no frame, and
leaves the whole driver state (UWB state, sequence counter, last result)
unchanged. -/
theorem uwb_respond_wrong_dest_noop :
    ∀ (V : Type) (unitID : Char) (env : RespondEnv) (st : DriverState V) (pf : UWBFrame),
      env.poll = some pf →
      pf.destAddr ≠ unitID.toNat % 65536 →
      uwb_respond_hw V unitID env st =
        { ret := false, framesSent := [], finalState := st } := by
  intro V unitID env st pf hp hd
  simp only [uwb_respond_hw, hp]
  split
  · rfl
  · rfl

/-- C8 witness: unit 'A' (address 65) overhears `samplePollToB`
(destination 66): no frame sent, state untouched. -/
theorem uwb_respond_wrong_dest_noop_witness :
    uwb_respond_hw Int 'A' sampleRespondEnvPollToB sampleDriverState =
      { ret := false, framesSent := [], finalState := sampleDriverState } :=
  uwb_respond_wrong_dest_noop Int 'A' sampleRespondEnvPollToB sampleDriverState
    samplePollToB rfl (by decide)

/-- C2: the claim says the transmitted RESP carries the responder's
`pollRx` and `respTx` timestamps.  In the source the RESP frame is built
and transmitted (dw3000_driver.h lines 779-788) when only
`respPayload.pollRxTime` has been assigned; the assignment
`respPayload.respTxTime = respTxTime` on line 794 happens after the
transmission and never reaches any frame.  Hence for every accepted POLL
the first frame `uwb_respond` transmits carries, in its four payload words,
the uninitialised stack values around the one assigned `pollRx` word: in
particular its `respTx` slot holds `junkResp.respTxTime`, independent of
the measured RESP TX timestamp `env.respTxTs`. -/
theorem uwb_respond_resp_frame_carries_junk :
    ∀ (V : Type) (unitID : Char) (env : RespondEnv) (st : DriverState V) (pf : UWBFrame),
      st.uwbState = UWBState.ready →
      env.poll = some pf →
      pf.destAddr = unitID.toNat % 65536 →
      pf.msgType = MSG_TYPE_POLL →
      env.respTxOk = true →
      ((uwb_respond_hw V unitID env st).framesSent.head?).map UWBFrame.payload =
        some ⟨env.junkResp.pollTxTime, env.pollRxTs, env.junkResp.respTxTime,
          env.junkResp.respRxTime⟩ := by
  intro V unitID env st pf hst hp hd hm htx
  cases hf : env.final with
  | none =>
    simp [uwb_respond_hw, hp, hst, hd, hm, htx, hf, build_frame, twrToFramePayload]
  | some ff =>
    cases hrt : env.reportTxOk <;>
      by_cases hmf : ff.msgType = MSG_TYPE_FINAL <;>
        simp [uwb_respond_hw, hp, hst, hd, hm, htx, hf, hrt, hmf, build_frame,
          twrToFramePayload]

/-- C2 witness: unit 'B' accepts `samplePollToB`; the measured RESP TX
timestamp is 42 but the transmitted RESP payload is `⟨11, 777, 13, 14⟩` —
its `respTx` slot holds the uninitialised stack word 13, not 42. -/
theorem uwb_respond_resp_frame_carries_junk_witness :
    ((uwb_respond_hw Int 'B' sampleRespondEnvPollToB sampleDriverState).framesSent.head?).map
        UWBFrame.payload = some ⟨11, 777, 13, 14⟩ :=
  uwb_respond_resp_frame_carries_junk Int 'B' sampleRespondEnvPollToB sampleDriverState
    samplePollToB rfl rfl (by decide) rfl rfl

/-- C4 counterexample: with simulation mode enabled, `uwb_range` — the
ranging driver entry point — DOES complete an exchange: from a READY state
it returns true with a successful `RangingResult` whose distance is the
synthetic value computed inside the driver, refuting "the protocol state
machine never completes an exchange" and "the substitution is performed
entirely in the Orchestrator". -/
theorem uwb_range_sim_completes_exchange :
    (uwb_range_sim Int (fun _ _ => 2) 0 5000 sampleDriverState 'B').ret = true
    ∧ (uwb_range_sim Int (fun _ _ => 2) 0 5000 sampleDriverState 'B').resultWrite =
        some { success := true, distance := 2, quality := 0, timestamp := 5, peerID := 'B' } := by
  constructor <;> rfl

/-- C4 (amended): with simulation mode enabled the low-level receive path
never produces a frame and the responder does nothing, but `uwb_range`
itself substitutes the synthetic distance
(`generateSimulatedDistance(peerID)`) and returns a successful result,
storing it in `g_lastResult`: the substitution happens inside the ranging
driver, and the Orchestrator merely forwards the already-synthetic
result. -/
theorem uwb_range_sim_spec :
    ∀ (V : Type) (gen : Char → Nat → V) (q : V) (millis : Nat)
      (st : DriverState V) (peerID : Char),
      st.uwbState = UWBState.ready →
      (uwb_range_sim V gen q millis st peerID).ret = true
      ∧ (uwb_range_sim V gen q millis st peerID).resultWrite =
          some { success := true, distance := gen peerID millis, quality := q,
                 timestamp := millis / 1000, peerID := peerID }
      ∧ (uwb_range_sim V gen q millis st peerID).finalState.lastResult =
          { success := true, distance := gen peerID millis, quality := q,
            timestamp := millis / 1000, peerID := peerID }
      ∧ (uwb_range_sim V gen q millis st peerID).estimatorArg = none
      ∧ (uwb_range_sim V gen q millis st peerID).framesSent = []
      ∧ dw3000_rx_sim = false ∧ uwb_respond_sim = false := by
  intro V gen q millis st peerID hst
  refine ⟨?_, ?_, ?_, ?_, ?_, rfl, rfl⟩ <;> simp [uwb_range_sim, hst]

/-- C4 witness: `uwb_range_sim_spec` at a concrete READY state. -/
theorem uwb_range_sim_spec_witness :
    (uwb_range_sim Int (fun _ _ => 3) 1 9000 sampleDriverState 'C').ret = true
    ∧ (uwb_range_sim Int (fun _ _ => 3) 1 9000 sampleDriverState 'C').resultWrite =
        some { success := true, distance := 3, quality := 1, timestamp := 9, peerID := 'C' }
    ∧ (uwb_range_sim Int (fun _ _ => 3) 1 9000 sampleDriverState 'C').finalState.lastResult =
        { success := true, distance := 3, quality := 1, timestamp := 9, peerID := 'C' }
    ∧ (uwb_range_sim Int (fun _ _ => 3) 1 9000 sampleDriverState 'C').estimatorArg = none
    ∧ (uwb_range_sim Int (fun _ _ => 3) 1 9000 sampleDriverState 'C').framesSent = []
    ∧ dw3000_rx_sim = false ∧ uwb_respond_sim = false :=
  uwb_range_sim_spec Int (fun _ _ => 3) 1 9000 sampleDriverState 'C' rfl

/-- Membership in a one-element conditional list forces equality with that
element. -/
theorem mem_ite_singleton {α : Type} {c : Prop} [Decidable c] {a x : α}
    (h : x ∈ if c then [a] else []) : x = a := by
  split at h <;> simp_all

/-- No action of the periodic-task section is a `uwb_respond` call. -/
theorem respondCall_not_mem_loopPeriodic (env : LoopEnv) (t : Nat) :
    LoopAction.respondCall t ∉ loopPeriodic env := by
  intro h
  unfold loopPeriodic at h
  rw [List.mem_append, List.mem_append] at h
  rcases h with (h | h) | h <;> exact absurd (mem_ite_singleton h) (by simp)

/-- C3: the claim says every loop iteration outside the unit's own slot
runs the responder side (`uwb_respond`).  In the source, `loop()` never
calls `uwb_respond` in ANY iteration (first conjunct), and outside the slot
the iteration is exactly `wifi_monitor`, `delay(50)` and the periodic
tasks (second conjunct) — the node does not listen for POLLs at all. -/
theorem loop_no_responder_outside_slot :
    (∀ (env : LoopEnv) (t : Nat), LoopAction.respondCall t ∉ loop_actions env)
    ∧ (∀ env : LoopEnv, env.wifiConnected = true → env.uwbReady = true →
        isMyTimeSlot env.unitID env.millis = false →
        loop_actions env =
          LoopAction.wifiMonitor :: LoopAction.delayMs 50 :: loopPeriodic env) := by
  constructor
  · intro env t h
    simp only [loop_actions, List.mem_cons] at h
    rcases h with h | h
    · exact absurd h (by simp)
    · split at h
      · simp_all
      · split at h
        · rw [List.mem_append] at h
          rcases h with h | h
          · exact absurd (mem_ite_singleton h) (by simp)
          · simp_all
        · split at h
          · split at h
            · simp_all
            · rw [List.mem_cons] at h
              rcases h with h | h
              · simp_all
              · rw [List.mem_append, List.mem_append] at h
                rcases h with (h | h) | h
                · split at h
                  · exact absurd (mem_ite_singleton h) (by simp)
                  · simp_all
                · simp_all
                · exact absurd h (respondCall_not_mem_loopPeriodic env t)
          · rw [List.mem_cons] at h
            rcases h with h | h
            · simp_all
            · exact absurd h (respondCall_not_mem_loopPeriodic env t)
  · intro env h1 h2 h3
    simp [loop_actions, h1, h2, h3]

/-- C3 witness: unit 'A' at `millis() = 300` (outside its [0,200) slot,
Wi-Fi up, UWB ready) executes only `wifi_monitor` and `delay(50)` and in
particular never calls `uwb_respond`. -/
theorem loop_no_responder_outside_slot_witness :
    loop_actions sampleLoopEnvOutsideSlot =
      LoopAction.wifiMonitor :: LoopAction.delayMs 50 :: loopPeriodic sampleLoopEnvOutsideSlot
    ∧ LoopAction.respondCall RANGING_TIMEOUT_MS ∉ loop_actions sampleLoopEnvOutsideSlot :=
  ⟨loop_no_responder_outside_slot.2 sampleLoopEnvOutsideSlot rfl rfl (by decide),
   loop_no_responder_outside_slot.1 sampleLoopEnvOutsideSlot RANGING_TIMEOUT_MS⟩

end UWBFirmware
